import Mathlib

/-!
Verification of the OrbitsGL orbit-determination and frame-transformation
engine against its natural-language specification.

The development shallowly embeds the JavaScript source:
* discrete logic (Julian-time conversion, time-sliced TLE file switching,
  the simulation-clock offset update, the fleet-propagation loop, TLE
  epoch parsing) is embedded over `ℤ`/`ℚ`, fully executable;
* numeric orbital mechanics (frame rotations, the Kepler-equation
  Newton solver) is embedded over `ℝ`;
* behaviour that hinges on JavaScript `undefined`/`NaN` semantics
  (missing object fields, unbound identifiers) is embedded over an
  explicit JavaScript-number domain `JsNum`.
-/

set_option maxHeartbeats 1600000

/-! ## Calendar instants

`TimeConversions.computeJulianTime` reads its input through
`getUTCFullYear/getUTCMonth/getUTCDate/getUTCHours/getUTCMinutes/getUTCSeconds`,
so an instant is embedded as that six-tuple of integers (month already
shifted to 1..12 as in the source, which adds 1 to `getUTCMonth`). -/
structure DateRec where
  year : ℤ
  month : ℤ
  day : ℤ
  hour : ℤ
  minute : ℤ
  second : ℤ
deriving DecidableEq, Repr

namespace TimeConversions

/-- Embedding of `TimeConversions.computeJulianTime`
(src/computation/Kepler_documented.js lines 260-284).  Returns the pair
`(JD, JT)`.  `Math.floor` on a JavaScript number is `Int.floor` on `ℚ`. -/
def computeJulianTime (date : DateRec) : ℚ × ℚ :=
  let hour : ℚ := (date.hour : ℚ) + (date.minute : ℚ) / 60 + (date.second : ℚ) / 3600
  let ym : ℤ × ℤ := if date.month ≤ 2 then (date.year - 1, date.month + 12)
    else (date.year, date.month)
  let year := ym.1
  let month := ym.2
  let A : ℤ := ⌊(year : ℚ) / 100⌋
  let B : ℤ := 2 - A + ⌊(A : ℚ) / 4⌋
  let JD : ℚ := (⌊(365.25 : ℚ) * ((year : ℚ) + 4716)⌋ : ℚ) +
    (⌊(30.6001 : ℚ) * ((month : ℚ) + 1)⌋ : ℚ) + (date.day : ℚ) + (B : ℚ) - 1524.5
  let JT : ℚ := JD + hour / 24
  (JD, JT)

/-- Modelled from the spec: the core Meeus Gregorian-to-Julian-Date formula
("standard Gregorian-to-Julian-Date algorithm (Meeus-style)" with the
centuries correction `B = 2 - A + ⌊A/4⌋`), applied to an already
month-shifted year/month pair.  Used only to state the refinement theorem
for claim C2. -/
def meeusCore (year month day : ℤ) (hour : ℚ) : ℚ × ℚ :=
  let A : ℤ := ⌊(year : ℚ) / 100⌋
  let B : ℤ := 2 - A + ⌊(A : ℚ) / 4⌋
  let JD : ℚ := (⌊(365.25 : ℚ) * ((year : ℚ) + 4716)⌋ : ℚ) +
    (⌊(30.6001 : ℚ) * ((month : ℚ) + 1)⌋ : ℚ) + (day : ℚ) + (B : ℚ) - 1524.5
  (JD, JD + hour / 24)

end TimeConversions

/-! ## Time-sliced TLE file switching (src/unnamed/part_009) -/

/-- Embedding of `checkAndSwitchFiles` (src/unnamed/part_009 lines
258-303).  A file is represented by its epoch timestamp in milliseconds
(`tleFiles[i].timestamp`); `idx` is the global `currentFileIndex` and `t`
is `today.getTime()`.  The result is the new index together with the list
of indices whose file was re-parsed by `processTLEFile` during the
invocation.  `forwardSwitch` is the first `if` block (forward switching). -/
def forwardSwitch (files : List ℤ) (idx : ℕ) (t : ℤ) : ℕ × List ℕ :=
  if idx < files.length - 1 ∧ t ≥ files.getD (idx + 1) 0 then
    (idx + 1, [idx + 1])
  else (idx, [])

/-- Second `if` block of `checkAndSwitchFiles` (backward switching),
applied to the state left by the forward block. -/
def backwardSwitch (files : List ℤ) (st : ℕ × List ℕ) (t : ℤ) : ℕ × List ℕ :=
  if 0 < st.1 ∧ t < files.getD st.1 0 then
    (st.1 - 1, st.2 ++ [st.1 - 1])
  else st

/-- One invocation of `checkAndSwitchFiles`: early return on an empty file
set, then the forward block followed by the backward block. -/
def checkAndSwitchFiles (files : List ℤ) (idx : ℕ) (t : ℤ) : ℕ × List ℕ :=
  if files.length = 0 then (idx, [])
  else backwardSwitch files (forwardSwitch files idx t) t

/-- Modelled from the spec: "a pure function `selectActiveFile(fileSet,
instant) -> index` must satisfy: index is the largest i such that
`fileSet[i].epoch <= instant`, clamped to 0 at the low end and to the last
index at the high end."  For an ascending list the largest such index is
one less than the length of the prefix of epochs `≤ instant`; natural
subtraction clamps the low end to 0. -/
def selectActiveFile (files : List ℤ) (t : ℤ) : ℕ :=
  (files.takeWhile (fun e => decide (e ≤ t))).length - 1

/-- Iterating the switching procedure `n` times from index `idx`. -/
def switchIter (files : List ℤ) (t : ℤ) : ℕ → ℕ → ℕ
  | 0, idx => idx
  | n + 1, idx => switchIter files t n (checkAndSwitchFiles files idx t).1

/-! ## Simulation clock: time-warp offset update (src/unnamed/part_000) -/

/-- Per-frame inputs read by the `dateDelta` update in `drawScene`
(src/unnamed/part_000 lines 1123-1130): the warp toggle
`guiControls.timeWarp`, the warp rate `timeControls.warpSeconds` (seconds
per frame), and the sizes of `tleFiles` and `satellites`. -/
structure FrameInput where
  timeWarp : Bool
  warpSeconds : ℤ
  tleCount : ℕ
  satCount : ℕ
deriving DecidableEq, Repr

/-- Embedding of the `dateDelta` update executed once per rendered frame
(src/unnamed/part_000 lines 1123-1130):

    if (guiControls.timeWarp) dateDelta += warpSeconds * 1000
    else if (tleFiles.length == 0 || satellites.length == 0) dateDelta = 0
-/
def frameStep (dateDelta : ℤ) (f : FrameInput) : ℤ :=
  if f.timeWarp then dateDelta + f.warpSeconds * 1000
  else if f.tleCount = 0 ∨ f.satCount = 0 then 0
  else dateDelta

/-- Folding `frameStep` over a sequence of rendered frames. -/
def runFrames (dateDelta : ℤ) (fs : List FrameInput) : ℤ :=
  fs.foldl frameStep dateDelta

/-- Clock state touched by the "Reset Time" button: the manual delta
fields, the manual base calendar fields, and the accumulated warp offset
`dateDelta`. -/
structure ClockState where
  deltaDays : ℤ
  deltaHours : ℤ
  deltaMins : ℤ
  deltaSecs : ℤ
  base : DateRec
  dateDelta : ℤ
deriving DecidableEq, Repr

/-- Embedding of the "Reset Time" handler (src/GUI/Controls.js lines
515-536): zeroes the four delta controls, seeds the calendar controls from
a freshly read wall clock `wall`, and sets `dateDelta = 0`. -/
def resetTime (_s : ClockState) (wall : DateRec) : ClockState :=
  { deltaDays := 0, deltaHours := 0, deltaMins := 0, deltaSecs := 0
    base := wall, dateDelta := 0 }

/-- Visible simulated instant in milliseconds (src/unnamed/part_000 lines
1132-1146): base instant plus the four manual deltas plus `dateDelta`,
given the base instant already converted to milliseconds. -/
def todayMs (baseMs : ℤ) (s : ClockState) : ℤ :=
  baseMs + 24 * 3600 * 1000 * s.deltaDays + 3600 * 1000 * s.deltaHours +
    60 * 1000 * s.deltaMins + 1000 * s.deltaSecs + s.dateDelta

/-! ## Per-frame fleet propagation (src/unnamed/part_000 lines 1164-1198,
src/unnamed/part_012 lines 150-184) -/

/-- Rational 3-vector, used where the source carries kilometer/meter
coordinates through arithmetic only. -/
structure Vec3Q where
  x : ℚ
  y : ℚ
  z : ℚ
deriving DecidableEq, Repr

/-- Outcome of the external propagator call
`sgp4.propagateTargetTs(sat, today, 10.0)` for one satellite: the call
either throws, or returns an object whose position `r` may be `undefined`
(the source checks `typeof posEci !== 'undefined'`) and whose velocity is
`v`. The propagator is a black-box collaborator, so a roster entry is
identified with its outcome at the frame's instant. -/
inductive SatResult where
  | throws : SatResult
  | ret (r : Option Vec3Q) (v : Vec3Q) : SatResult
deriving DecidableEq, Repr

/-- Kilometers to meters: each component times 1000. -/
def scaleKmToM (v : Vec3Q) : Vec3Q :=
  { x := v.x * 1000, y := v.y * 1000, z := v.z * 1000 }

/-- An output state vector of the fleet loop: meters, meters/second, and
the shared frame instant. -/
structure OsvQ where
  r : Vec3Q
  v : Vec3Q
  ts : ℤ
deriving DecidableEq, Repr

/-- Embedding of the fleet-propagation loop body (src/unnamed/part_000
lines 1164-1198): iterate the roster; a `catch` continues to the next
satellite; a defined position is converted to meters (`* 1000.0`) and
pushed with timestamp `today`; an undefined position is skipped. -/
def fleetPropagate (roster : List SatResult) (today : ℤ) : List OsvQ :=
  match roster with
  | [] => []
  | .throws :: rest => fleetPropagate rest today
  | .ret none _ :: rest => fleetPropagate rest today
  | .ret (some r) v :: rest =>
      { r := scaleKmToM r, v := scaleKmToM v, ts := today } :: fleetPropagate rest today

/-! ## TLE epoch parsing (src/unnamed/part_009 lines 170-179) -/

/-- Number of leap years in `1..y-1` (proleptic Gregorian), used to place
UTC January 1 of year `y` on the millisecond timeline. -/
def leapDaysBefore (y : ℤ) : ℤ :=
  (y - 1).fdiv 4 - (y - 1).fdiv 100 + (y - 1).fdiv 400

/-- Milliseconds of `Date.UTC(y, 0, 1)`: days from 1970-01-01 to
January 1 of year `y`, times 86400000. -/
def utcMsJan1 (y : ℤ) : ℤ :=
  86400000 * (365 * (y - 1) + leapDaysBefore y - 719162)

/-- Truncation toward zero, the ECMAScript `ToIntegerOrInfinity` applied
by `MakeDay` to the argument of `Date.prototype.setUTCDate`. -/
def jsTrunc (q : ℚ) : ℤ :=
  if 0 ≤ q then ⌊q⌋ else -⌊-q⌋

/-- Embedding of the `firstSatelliteEpoch` construction
(src/unnamed/part_009 lines 170-179) given the already-parsed two-digit
epoch year `y2` (`parseInt(epochString.substring(0, 2))`) and fractional
day-of-year `days` (`parseFloat(epochString.substring(2))`):

    const fullYear = year < 57 ? 2000 + year : 1900 + year
    firstSatelliteEpoch = new Date(Date.UTC(fullYear, 0, 1))
    firstSatelliteEpoch.setUTCDate(days)

`setUTCDate` truncates its argument (ECMAScript `MakeDay`), so the stored
instant is January 1 advanced by `trunc(days) - 1` whole days. -/
def firstSatelliteEpochMs (y2 : ℤ) (days : ℚ) : ℤ :=
  let fullYear := if y2 < 57 then 2000 + y2 else 1900 + y2
  utcMsJan1 fullYear + (jsTrunc days - 1) * 86400000

/-- The claim's reading of the same construction, keeping the fractional
day: UTC January 1 of the windowed year advanced by the full fractional
day-of-year field (day 1 being January 1 itself). -/
def claimedEpochMs (y2 : ℤ) (days : ℚ) : ℚ :=
  let fullYear := if y2 < 57 then 2000 + y2 else 1900 + y2
  (utcMsJan1 fullYear : ℚ) + (days - 1) * 86400000


/-! ## Real-number semantics of the frame transforms

The frame rotations and the Kepler-equation solver are numeric code; they
are embedded over `ℝ`.  The ℝ embedding covers the paths on which every
JavaScript value is an ordinary number (nutation supplied by the caller);
paths that hinge on `undefined`/`NaN` are treated in the JsNum section
below. -/

/-- Real 3-vector: the `[x, y, z]` arrays the source passes around. -/
structure Vec3R where
  x : ℝ
  y : ℝ
  z : ℝ

/-- Componentwise difference, for stating the round-trip tolerance. -/
noncomputable def sub3 (a b : Vec3R) : Vec3R :=
  { x := a.x - b.x, y := a.y - b.y, z := a.z - b.z }

/-- Euclidean length written as the source's `sqrt(x*x + y*y + z*z)`. -/
noncomputable def norm3 (v : Vec3R) : ℝ :=
  Real.sqrt (v.x * v.x + v.y * v.y + v.z * v.z)

namespace MathUtils

/-- Embedding of `MathUtils.deg2Rad` (src/unnamed/part_014 lines 399-401). -/
noncomputable def deg2Rad (angle : ℝ) : ℝ :=
  angle * Real.pi / 180.0

/-- Modelled from the spec: `MathUtils.rad2Deg` is not among the source
files (only call sites are); it is the inverse degree conversion
`angle * 180 / π`. -/
noncomputable def rad2Deg (angle : ℝ) : ℝ :=
  angle * 180.0 / Real.pi

/-- Embedding of `MathUtils.sind` (src/unnamed/part_014 lines 367-369). -/
noncomputable def sind (angle : ℝ) : ℝ :=
  Real.sin (deg2Rad angle)

/-- Embedding of `MathUtils.cosd` (src/unnamed/part_014 lines 383-385). -/
noncomputable def cosd (angle : ℝ) : ℝ :=
  Real.cos (deg2Rad angle)

/-- Embedding of `MathUtils.rotZ` (src/unnamed/part_014 lines 432-442). -/
noncomputable def rotZ (vec : Vec3R) (angle : ℝ) : Vec3R :=
  let rad := deg2Rad angle
  { x := Real.cos rad * vec.x - Real.sin rad * vec.y
    y := Real.sin rad * vec.x + Real.cos rad * vec.y
    z := vec.z }

/-- Modelled from the spec: `MathUtils.rotX` is not among the source files
(only call sites are); standard rotation about the x-axis by an angle in
degrees, the counterpart of the source's `rotZ`. -/
noncomputable def rotX (vec : Vec3R) (angle : ℝ) : Vec3R :=
  let rad := deg2Rad angle
  { x := vec.x
    y := Real.cos rad * vec.y - Real.sin rad * vec.z
    z := Real.sin rad * vec.y + Real.cos rad * vec.z }

/-- Modelled from the spec: `MathUtils.rotY` is not among the source files
(only call sites are); standard rotation about the y-axis by an angle in
degrees, the counterpart of the source's `rotZ`. -/
noncomputable def rotY (vec : Vec3R) (angle : ℝ) : Vec3R :=
  let rad := deg2Rad angle
  { x := Real.cos rad * vec.x + Real.sin rad * vec.z
    y := vec.y
    z := -(Real.sin rad) * vec.x + Real.cos rad * vec.z }

end MathUtils


/-- Nutation parameter object as consumed by the frame transforms:
nutation in longitude `dpsi`, nutation in obliquity `deps`, and mean
obliquity `eps` (spec §3, NutationTerms). -/
structure NutPar where
  dpsi : ℝ
  deps : ℝ
  eps : ℝ

/-- Truncation toward zero on `ℝ`, the behaviour of the JavaScript `%`
operator's implicit quotient. -/
noncomputable def jsTruncR (x : ℝ) : ℝ :=
  if 0 ≤ x then (⌊x⌋ : ℝ) else -((⌊-x⌋ : ℝ))

/-- JavaScript remainder `x % y` on numbers: `x - y * trunc(x / y)`. -/
noncomputable def jsFmod (x y : ℝ) : ℝ :=
  x - y * jsTruncR (x / y)

namespace TimeConversions

/-- Embedding of `TimeConversions.computeSiderealTime`
(src/computation/Kepler_documented.js lines 312-331): GAST polynomial in
`JD`, optional equation-of-the-equinoxes correction when a nutation
object is supplied (`if (nutPar)`), and normalization into [0, 360). -/
noncomputable def computeSiderealTime (lon JD _JT : ℝ) (nutPar : Option NutPar) : ℝ :=
  let T := (JD - 2451545.0) / 36525.0
  let gast0 := 280.46061837 + 360.98564736629 * (JD - 2451545.0) +
    0.000387933 * T * T - T * T * T / 38710000.0
  let gast := match nutPar with
    | some np => gast0 + np.dpsi * Real.cos np.eps
    | none => gast0
  let lst := jsFmod (gast + lon) 360
  if lst < 0 then lst + 360 else lst

end TimeConversions

/-- Orbital state vector over `ℝ`: position, velocity, timestamp. -/
structure OsvR where
  r : Vec3R
  v : Vec3R
  ts : DateRec

namespace Frames

/-- Embedding of `Frames.osvJ2000ToCEP` (src/unnamed/part_014 lines
116-148) on the path where the caller supplies a nutation object with
numeric fields (the `nutPar == null` fallback path is analysed in the
JsNum section, claim C6): IAU-1976 precession to Mean-of-Date, then the
nutation rotation. -/
noncomputable def osvJ2000ToCEP (osv : OsvR) (nutPar : NutPar) : OsvR :=
  let julian := TimeConversions.computeJulianTime osv.ts
  let T : ℝ := ((julian.2 : ℝ) - 2451545.0) / 36525.0
  let z := 0.6406161388 * T + 3.04e-4 * T * T + 5.05e-6 * T * T * T
  let nu := 0.5567530277 * T - 1.185e-4 * T * T - 1.162e-5 * T * T * T
  let zeta := 0.6406161388 * T + 8.385e-5 * T * T + 4.999e-6 * T * T * T
  let rMoD := MathUtils.rotZ (MathUtils.rotY (MathUtils.rotZ osv.r zeta) (-nu)) z
  let vMoD := MathUtils.rotZ (MathUtils.rotY (MathUtils.rotZ osv.v zeta) (-nu)) z
  let rCEP := MathUtils.rotX
    (MathUtils.rotZ (MathUtils.rotX rMoD (-nutPar.eps)) nutPar.dpsi)
    (nutPar.eps + nutPar.deps)
  let vCEP := MathUtils.rotX
    (MathUtils.rotZ (MathUtils.rotX vMoD (-nutPar.eps)) nutPar.dpsi)
    (nutPar.eps + nutPar.deps)
  { r := rCEP, v := vCEP, ts := osv.ts }

/-- Embedding of `Frames.osvJ2000ToECEF` (src/unnamed/part_014 lines
35-91): J2000 → CEP, then rotation by Greenwich Apparent Sidereal Time
for the position, and the rotated velocity plus the Earth-rotation-rate
cross-term for the velocity. -/
noncomputable def osvJ2000ToECEF (osv : OsvR) (nutPar : NutPar) : OsvR :=
  let julian := TimeConversions.computeJulianTime osv.ts
  let osvCEP := osvJ2000ToCEP osv nutPar
  let LST := TimeConversions.computeSiderealTime 0 (julian.1 : ℝ) (julian.2 : ℝ)
    (some nutPar)
  let rECEF := MathUtils.rotZ osvCEP.r (-LST)
  let v_rot := MathUtils.rotZ osvCEP.v (-LST)
  let mat11 := MathUtils.cosd LST
  let mat12 := MathUtils.sind LST
  let mat21 := -(MathUtils.sind LST)
  let mat22 := MathUtils.cosd LST
  let k1 : ℝ := 360.985647366
  let dGASTdt := (1 / 86400.0) * k1
  let dRdt11 := -dGASTdt * (Real.pi / 180.0) * MathUtils.sind LST
  let dRdt12 := dGASTdt * (Real.pi / 180.0) * MathUtils.cosd LST
  let dRdt21 := -dGASTdt * (Real.pi / 180.0) * MathUtils.cosd LST
  let dRdt22 := -dGASTdt * (Real.pi / 180.0) * MathUtils.sind LST
  let vx := mat11 * osvCEP.v.x + mat12 * osvCEP.v.y + dRdt11 * rECEF.x + dRdt12 * rECEF.y
  let vy := mat21 * osvCEP.v.x + mat22 * osvCEP.v.y + dRdt21 * rECEF.x + dRdt22 * rECEF.y
  { r := rECEF, v := { x := vx, y := vy, z := v_rot.z }, ts := osv.ts }

/-- Modelled from the spec: `Frames.posECEFToCEP` is not among the source
files (only call sites such as `drawSun` are, with argument order
`(JT, JD, r, nutPar)`); per spec §4.2 it is the position-only inverse of
the final Earth-rotation stage, rotating by the same sidereal angle in
the opposite sense. -/
noncomputable def posECEFToCEP (JT JD : ℝ) (r : Vec3R) (nutPar : NutPar) : Vec3R :=
  let LST := TimeConversions.computeSiderealTime 0 JD JT (some nutPar)
  MathUtils.rotZ r LST

/-- Embedding of `Frames.posCEPToJ2000` (src/unnamed/part_014 lines
203-227) on the supplied-nutation path: undo the nutation rotation, then
undo the precession rotation. -/
noncomputable def posCEPToJ2000 (JT : ℝ) (rCEP : Vec3R) (nutPar : NutPar) : Vec3R :=
  let T := (JT - 2451545.0) / 36525.0
  let z := 0.6406161388 * T + 3.04e-4 * T * T + 5.05e-6 * T * T * T
  let nu := 0.5567530277 * T - 1.185e-4 * T * T - 1.162e-5 * T * T * T
  let zeta := 0.6406161388 * T + 8.385e-5 * T * T + 4.999e-6 * T * T * T
  let rMOD := MathUtils.rotX
    (MathUtils.rotZ (MathUtils.rotX rCEP (-(nutPar.eps + nutPar.deps))) (-nutPar.dpsi))
    nutPar.eps
  let rJ2000 := MathUtils.rotZ (MathUtils.rotY (MathUtils.rotZ rMOD (-z)) nu) (-zeta)
  rJ2000

end Frames

namespace Kepler

/-- Failure raised by `solveEccentricAnomaly` when the Newton-Raphson
iteration exceeds its budget (`throw new Error('Failed to converge...')`). -/
inductive KeplerError where
  | convergence : KeplerError
deriving DecidableEq, Repr

/-- Loop of `Kepler.solveEccentricAnomaly`
(src/computation/Kepler_documented.js lines 96-112), with the remaining
iteration budget as fuel: while `error > tolerance`, perform one
Newton-Raphson update of `eA` and recompute `error` from the updated
`eA`; entering the loop with no budget left raises the convergence
error. -/
noncomputable def solveSteps (e Mrad tolerance : ℝ) :
    ℕ → ℝ → ℝ → Except KeplerError ℝ
  | 0, eA, error =>
      if error > tolerance then .error .convergence else .ok eA
  | fuel + 1, eA, error =>
      if error > tolerance then
        let eA2 := eA - (eA - e * Real.sin eA - Mrad) / (1 - e * Real.cos eA)
        solveSteps e Mrad tolerance fuel eA2 |eA2 - e * Real.sin eA2 - Mrad|
      else .ok eA

/-- Embedding of `Kepler.solveEccentricAnomaly`
(src/computation/Kepler_documented.js lines 96-112): mean anomaly in
degrees converted to radians as the initial guess, initial `error`
`tolerance + 1.0`, and the result converted back to degrees. -/
noncomputable def solveEccentricAnomaly (M e tolerance : ℝ)
    (maxIterations : ℕ) : Except KeplerError ℝ :=
  (solveSteps e (MathUtils.deg2Rad M) tolerance maxIterations
    (MathUtils.deg2Rad M) (tolerance + 1.0)).map MathUtils.rad2Deg

end Kepler

/-! ## JavaScript-number semantics

Claims C1 and C6 hinge on JavaScript `undefined` and `NaN`: reading an
object property the source never assigned yields `undefined`, and any
arithmetic involving `undefined` or `NaN` yields `NaN`.  `JsNum` makes
these values explicit; `num x` is an ordinary (finite) number.  The
analysed paths perform no division by zero on ordinary numbers, so
infinities are not modelled. -/
inductive JsNum where
  | num (x : ℝ) : JsNum
  | nan : JsNum
  | undef : JsNum

namespace JsNum

noncomputable def jadd : JsNum → JsNum → JsNum
  | num a, num b => num (a + b)
  | _, _ => nan

noncomputable def jsub : JsNum → JsNum → JsNum
  | num a, num b => num (a - b)
  | _, _ => nan

noncomputable def jmul : JsNum → JsNum → JsNum
  | num a, num b => num (a * b)
  | _, _ => nan

noncomputable def jdiv : JsNum → JsNum → JsNum
  | num a, num b => num (a / b)
  | _, _ => nan

noncomputable def jneg : JsNum → JsNum
  | num a => num (-a)
  | _ => nan

noncomputable def jabs : JsNum → JsNum
  | num a => num |a|
  | _ => nan

noncomputable def jsqrt : JsNum → JsNum
  | num a => num (Real.sqrt a)
  | _ => nan

noncomputable def jsin : JsNum → JsNum
  | num a => num (Real.sin a)
  | _ => nan

noncomputable def jcos : JsNum → JsNum
  | num a => num (Real.cos a)
  | _ => nan

/-- Standard four-quadrant arctangent, the value of `Math.atan2` on
finite arguments. -/
noncomputable def atan2R (y x : ℝ) : ℝ :=
  if 0 < x then Real.arctan (y / x)
  else if x < 0 ∧ 0 ≤ y then Real.arctan (y / x) + Real.pi
  else if x < 0 ∧ y < 0 then Real.arctan (y / x) - Real.pi
  else if x = 0 ∧ 0 < y then Real.pi / 2
  else if x = 0 ∧ y < 0 then -(Real.pi / 2)
  else 0

noncomputable def jatan2 : JsNum → JsNum → JsNum
  | num y, num x => num (atan2R y x)
  | _, _ => nan

noncomputable def jacos : JsNum → JsNum
  | num a => num (Real.arccos a)
  | _ => nan

/-- JavaScript `>` on numbers: false whenever either side is `NaN` or
`undefined` (after `ToNumber`). -/
noncomputable def jgtb : JsNum → JsNum → Bool
  | num a, num b => decide (b < a)
  | _, _ => false

/-- JavaScript `<` on numbers, with the same `NaN` behaviour. -/
noncomputable def jltb : JsNum → JsNum → Bool
  | num a, num b => decide (a < b)
  | _, _ => false

/-- JavaScript `== 0` on a number: false for `NaN` and `undefined`. -/
noncomputable def jeq0b : JsNum → Bool
  | num a => decide (a = 0)
  | _ => false

end JsNum

open JsNum in
/-- JavaScript 3-element array of numbers. -/
structure JsVec3 where
  x : JsNum
  y : JsNum
  z : JsNum

namespace MathUtilsJs

open JsNum

/-- Embedding of `MathUtils.deg2Rad` over JavaScript numbers:
`(angle * Math.PI) / 180.0`. -/
noncomputable def deg2Rad (angle : JsNum) : JsNum :=
  jdiv (jmul angle (num Real.pi)) (num 180.0)

/-- Modelled from the spec: `MathUtils.rad2Deg` is not among the source
files; inverse degree conversion `angle * 180 / π`. -/
noncomputable def rad2Deg (angle : JsNum) : JsNum :=
  jdiv (jmul angle (num 180.0)) (num Real.pi)

/-- Embedding of `MathUtils.sind`: `Math.sin(deg2Rad(angle))`. -/
noncomputable def sind (angle : JsNum) : JsNum :=
  jsin (deg2Rad angle)

/-- Embedding of `MathUtils.cosd`: `Math.cos(deg2Rad(angle))`. -/
noncomputable def cosd (angle : JsNum) : JsNum :=
  jcos (deg2Rad angle)

/-- Modelled from the spec: `MathUtils.acosd` is not among the source
files; arc cosine returning degrees. -/
noncomputable def acosd (a : JsNum) : JsNum :=
  rad2Deg (jacos a)

/-- Modelled from the spec: `MathUtils.atan2d` is not among the source
files; four-quadrant arctangent returning degrees. -/
noncomputable def atan2d (y x : JsNum) : JsNum :=
  rad2Deg (jatan2 y x)

/-- Embedding of `MathUtils.cross` (src/unnamed/part_014 lines 474-480). -/
noncomputable def cross (a b : JsVec3) : JsVec3 :=
  { x := jsub (jmul a.y b.z) (jmul a.z b.y)
    y := jsub (jmul a.z b.x) (jmul a.x b.z)
    z := jsub (jmul a.x b.y) (jmul a.y b.x) }

/-- Modelled from the spec: `MathUtils.norm` is not among the source
files; Euclidean length `sqrt(x*x + y*y + z*z)` as in the source's
`normalize`. -/
noncomputable def norm (v : JsVec3) : JsNum :=
  jsqrt (jadd (jadd (jmul v.x v.x) (jmul v.y v.y)) (jmul v.z v.z))

/-- Modelled from the spec: `MathUtils.vecsub` is not among the source
files; componentwise difference. -/
noncomputable def vecsub (a b : JsVec3) : JsVec3 :=
  { x := jsub a.x b.x, y := jsub a.y b.y, z := jsub a.z b.z }

/-- Modelled from the spec: `MathUtils.vecmul` is not among the source
files; scalar multiple of a vector. -/
noncomputable def vecmul (a : JsVec3) (s : JsNum) : JsVec3 :=
  { x := jmul a.x s, y := jmul a.y s, z := jmul a.z s }

/-- Embedding of `MathUtils.rotZ` (src/unnamed/part_014 lines 432-442)
over JavaScript numbers. -/
noncomputable def rotZ (vec : JsVec3) (angle : JsNum) : JsVec3 :=
  let rad := deg2Rad angle
  { x := jsub (jmul (jcos rad) vec.x) (jmul (jsin rad) vec.y)
    y := jadd (jmul (jsin rad) vec.x) (jmul (jcos rad) vec.y)
    z := vec.z }

/-- Modelled from the spec: `MathUtils.rotX` is not among the source
files; standard x-axis rotation over JavaScript numbers. -/
noncomputable def rotX (vec : JsVec3) (angle : JsNum) : JsVec3 :=
  let rad := deg2Rad angle
  { x := vec.x
    y := jsub (jmul (jcos rad) vec.y) (jmul (jsin rad) vec.z)
    z := jadd (jmul (jsin rad) vec.y) (jmul (jcos rad) vec.z) }

/-- Modelled from the spec: `MathUtils.rotY` is not among the source
files; standard y-axis rotation over JavaScript numbers. -/
noncomputable def rotY (vec : JsVec3) (angle : JsNum) : JsVec3 :=
  let rad := deg2Rad angle
  { x := jadd (jmul (jcos rad) vec.x) (jmul (jsin rad) vec.z)
    y := vec.y
    z := jadd (jmul (jneg (jsin rad)) vec.x) (jmul (jcos rad) vec.z) }

end MathUtilsJs

/-- Nutation object as built by `Nutation.nutationTerms`
(src/unnamed/part_013 lines 34-45): the source returns
`{ dpsi: dpsi, deps: deps }` and never assigns `eps`, so reading `eps`
on the returned object yields `undefined`. -/
structure NutParJs where
  dpsi : JsNum
  deps : JsNum
  eps : JsNum

namespace Nutation

open JsNum

/-- Embedding of `Nutation.nutationTerms` (src/unnamed/part_013 lines
34-45).  `eps := undef` records that the source's returned object literal
has no `eps` property. -/
noncomputable def nutationTerms (T : JsNum) : NutParJs :=
  let dpsi := jsub
    (jmul (num (-17.2))
      (jsin (MathUtilsJs.deg2Rad (jsub (num 125.04) (jmul (num 1934.136) T)))))
    (jmul (num 1.32) (jsin (MathUtilsJs.deg2Rad (jmul (num 200.9) T))))
  let deps := jadd
    (jmul (num 9.2)
      (jcos (MathUtilsJs.deg2Rad (jsub (num 125.04) (jmul (num 1934.136) T)))))
    (jmul (num 0.57) (jcos (MathUtilsJs.deg2Rad (jmul (num 200.9) T))))
  { dpsi := dpsi, deps := deps, eps := undef }

end Nutation

/-- Orbital state vector over JavaScript numbers. -/
structure OsvJs where
  r : JsVec3
  v : JsVec3
  ts : DateRec

namespace FramesJs

open JsNum

/-- Embedding of `Frames.osvJ2000ToCEP` (src/unnamed/part_014 lines
116-148) over JavaScript numbers, including the `nutPar == null` fallback
that recomputes the nutation terms internally. -/
noncomputable def osvJ2000ToCEP (osv : OsvJs) (nutPar : Option NutParJs) : OsvJs :=
  let julian := TimeConversions.computeJulianTime osv.ts
  let T : JsNum := jdiv (jsub (num ((julian.2 : ℝ))) (num 2451545.0)) (num 36525.0)
  let z := jadd (jadd (jmul (num 0.6406161388) T) (jmul (num 3.04e-4) (jmul T T)))
    (jmul (num 5.05e-6) (jmul (jmul T T) T))
  let nu := jsub (jsub (jmul (num 0.5567530277) T) (jmul (num 1.185e-4) (jmul T T)))
    (jmul (num 1.162e-5) (jmul (jmul T T) T))
  let zeta := jadd (jadd (jmul (num 0.6406161388) T) (jmul (num 8.385e-5) (jmul T T)))
    (jmul (num 4.999e-6) (jmul (jmul T T) T))
  let rMoD := MathUtilsJs.rotZ (MathUtilsJs.rotY (MathUtilsJs.rotZ osv.r zeta) (jneg nu)) z
  let vMoD := MathUtilsJs.rotZ (MathUtilsJs.rotY (MathUtilsJs.rotZ osv.v zeta) (jneg nu)) z
  let np := match nutPar with
    | none => Nutation.nutationTerms T
    | some p => p
  let rCEP := MathUtilsJs.rotX
    (MathUtilsJs.rotZ (MathUtilsJs.rotX rMoD (jneg np.eps)) np.dpsi)
    (jadd np.eps np.deps)
  let vCEP := MathUtilsJs.rotX
    (MathUtilsJs.rotZ (MathUtilsJs.rotX vMoD (jneg np.eps)) np.dpsi)
    (jadd np.eps np.deps)
  { r := rCEP, v := vCEP, ts := osv.ts }

end FramesJs

/-- Errors a call of `Kepler.propagate` can throw: the solver's
convergence error, or the ReferenceError raised by evaluating the unbound
identifier `v_ext` in the return statement. -/
inductive JsError where
  | convergence : JsError
  | referenceError : JsError
deriving DecidableEq, Repr

namespace KeplerJs

open JsNum

/-- Keplerian-element object as built by `Kepler.osvToKepler`
(src/computation/Kepler_documented.js lines 138-181).  The source
assigns `ts, k, ecc, ecc_norm, incl, h, a, Omega, omega` and nothing
else; in particular it never assigns `M`, `mu` or `b`, so reading those
properties on the returned object yields `undefined`. -/
structure KeplerElems where
  ts : ℤ
  k : JsVec3
  ecc : JsVec3
  ecc_norm : JsNum
  incl : JsNum
  h : JsNum
  a : JsNum
  Omega : JsNum
  omega : JsNum
  M : JsNum
  mu : JsNum
  b : JsNum

/-- Embedding of `Kepler.osvToKepler`
(src/computation/Kepler_documented.js lines 138-181).  `mu` is the
function-local constant; it is used in the formulas but never stored on
the returned object, whose `M`, `mu` and `b` properties are absent
(`undef`). -/
noncomputable def osvToKepler (r v : JsVec3) (ts : ℤ) : KeplerElems :=
  let mu : JsNum := num 3.986004418e14
  let k := MathUtilsJs.cross r v
  let ecc := MathUtilsJs.vecsub
    (MathUtilsJs.vecmul (MathUtilsJs.cross v k) (jdiv (num 1.0) mu))
    (MathUtilsJs.vecmul r (jdiv (num 1.0) (MathUtilsJs.norm r)))
  let ecc_norm := MathUtilsJs.norm ecc
  let incl := MathUtilsJs.acosd (jdiv k.z (MathUtilsJs.norm k))
  let h := jsub (jmul (jmul (num 0.5) (MathUtilsJs.norm v)) (MathUtilsJs.norm v))
    (jdiv mu (MathUtilsJs.norm r))
  let a := jdiv (jneg mu) (jmul (num 2.0) h)
  let Omega := MathUtilsJs.atan2d k.x (jneg k.y)
  let omega := if jltb incl (num 1e-7) then
      jsub (MathUtilsJs.atan2d ecc.y ecc.x) Omega
    else
      let asc_y := jdiv ecc.z (MathUtilsJs.sind incl)
      let asc_x := jsub ecc.y (jdiv (jmul (MathUtilsJs.cosd Omega) ecc.z) (MathUtilsJs.sind incl))
      MathUtilsJs.atan2d asc_y asc_x
  { ts := ts, k := k, ecc := ecc, ecc_norm := ecc_norm, incl := incl, h := h
    a := a, Omega := Omega, omega := omega, M := undef, mu := undef, b := undef }

/-- Embedding of `Kepler.computePeriod`
(src/computation/Kepler_documented.js lines 67-69):
`2 * Math.PI * Math.sqrt(a*a*a / mu)`. -/
noncomputable def computePeriod (a mu : JsNum) : JsNum :=
  jmul (jmul (num 2) (num Real.pi)) (jsqrt (jdiv (jmul (jmul a a) a) mu))

/-- Loop of `Kepler.solveEccentricAnomaly` over JavaScript numbers, with
the iteration budget as fuel (src/computation/Kepler_documented.js lines
96-112).  A `NaN` `error` makes `error > tolerance` false, so the loop
exits and returns the current (NaN) iterate. -/
noncomputable def solveSteps (e Mrad tolerance : JsNum) :
    ℕ → JsNum → JsNum → Except JsError JsNum
  | 0, eA, error =>
      if jgtb error tolerance then .error .convergence else .ok eA
  | fuel + 1, eA, error =>
      if jgtb error tolerance then
        let eA2 := jsub eA (jdiv (jsub (jsub eA (jmul e (jsin eA))) Mrad)
          (jsub (num 1) (jmul e (jcos eA))))
        solveSteps e Mrad tolerance fuel eA2
          (jabs (jsub (jsub eA2 (jmul e (jsin eA2))) Mrad))
      else .ok eA

/-- Embedding of `Kepler.solveEccentricAnomaly` over JavaScript numbers. -/
noncomputable def solveEccentricAnomaly (M e tolerance : JsNum)
    (maxIterations : ℕ) : Except JsError JsNum :=
  (solveSteps e (MathUtilsJs.deg2Rad M) tolerance maxIterations
    (MathUtilsJs.deg2Rad M) (jadd tolerance (num 1.0))).map MathUtilsJs.rad2Deg

/-- Embedding of `Kepler.propagate`
(src/computation/Kepler_documented.js lines 207-228).  When
`kepler.a == 0` the source returns `undefined` (`.ok none`).  Otherwise
it propagates the mean anomaly — reading the absent properties
`kepler.M` and `kepler.mu` — solves the eccentric anomaly (which can
throw the convergence error), builds the orbital-plane position from the
absent `kepler.b`, rotates it, and then evaluates the return object
literal `{ r: r_ext, v: v_ext, ts: dateIn }`, whose `v_ext` is an
identifier bound nowhere in the source file: evaluating it throws a
ReferenceError, so no OSV is ever produced on this path. -/
noncomputable def propagate (kepler : KeplerElems) (dateIn : ℤ) :
    Except JsError (Option Unit) :=
  if jeq0b kepler.a then .ok none
  else
    let diff : JsNum := num ((dateIn - kepler.ts : ℤ) : ℝ)
    let Mext := jadd kepler.M (jdiv (jmul (num 360.0) diff)
      (jmul (computePeriod kepler.a kepler.mu) (num 1000.0)))
    match solveEccentricAnomaly Mext kepler.ecc_norm (num 1e-5) 10 with
    | .error err => .error err
    | .ok Eext =>
        let _r_orbital : JsVec3 :=
          { x := jmul kepler.a (jsub (MathUtilsJs.cosd Eext) kepler.ecc_norm)
            y := jmul kepler.b (MathUtilsJs.sind Eext)
            z := num 0 }
        let _r_ext := MathUtilsJs.rotZ
          (MathUtilsJs.rotX (MathUtilsJs.rotZ _r_orbital kepler.omega) kepler.incl)
          kepler.Omega
        .error .referenceError

end KeplerJs

/-! ## Lemmas and claim theorems -/

/-! ## Helper lemmas for the file-switching proofs -/

/-- Every position strictly inside the `takeWhile` prefix satisfies the
predicate. -/
lemma getD_of_lt_takeWhile_length {p : ℤ → Bool} {l : List ℤ} {i : ℕ}
    (h : i < (l.takeWhile p).length) : p (l.getD i 0) = true := by
  induction l generalizing i with
  | nil => simp [List.takeWhile] at h
  | cons a l ih =>
      rw [List.takeWhile_cons] at h
      by_cases hp : p a
      · simp only [hp, if_true, List.length_cons] at h
        cases i with
        | zero => simpa using hp
        | succ i =>
            simp only [List.getD_cons_succ]
            exact ih (Nat.lt_of_succ_lt_succ h)
      · simp [hp] at h

/-- The element at the position right after the `takeWhile` prefix fails
the predicate. -/
lemma getD_takeWhile_length {p : ℤ → Bool} {l : List ℤ}
    (h : (l.takeWhile p).length < l.length) :
    p (l.getD (l.takeWhile p).length 0) = false := by
  induction l with
  | nil => simp at h
  | cons a l ih =>
      rw [List.takeWhile_cons]
      by_cases hp : p a
      · rw [List.takeWhile_cons] at h
        simp only [hp, if_true, List.length_cons] at h ⊢
        simpa using ih (Nat.lt_of_succ_lt_succ h)
      · simp [hp]

/-- The `takeWhile` prefix is never longer than the list. -/
lemma takeWhile_length_le (p : ℤ → Bool) (l : List ℤ) :
    (l.takeWhile p).length ≤ l.length := by
  induction l with
  | nil => simp
  | cons a l ih =>
      rw [List.takeWhile_cons]
      by_cases hp : p a
      · simpa [hp] using Nat.succ_le_succ ih
      · simp [hp]

/-- In a `≤`-sorted list, `getD` is monotone over in-range indices. -/
lemma sorted_getD_mono {l : List ℤ} (hs : List.Sorted (· ≤ ·) l) {i j : ℕ}
    (hij : i ≤ j) (hj : j < l.length) : l.getD i 0 ≤ l.getD j 0 := by
  have hi : i < l.length := lt_of_le_of_lt hij hj
  rw [List.getD_eq_getElem l 0 hi, List.getD_eq_getElem l 0 hj]
  rcases Nat.lt_or_ge i j with hlt | hge
  · exact hs.rel_get_of_lt (a := ⟨i, hi⟩) (b := ⟨j, hj⟩) hlt
  · have : i = j := le_antisymm hij hge
    subst this
    exact le_refl _

/-- Positions up to the active-file target hold epochs `≤ t`. -/
lemma epoch_le_of_lt_prefix {files : List ℤ} {t : ℤ} {i : ℕ}
    (h : i < (files.takeWhile (fun e => decide (e ≤ t))).length) :
    files.getD i 0 ≤ t := by
  have := getD_of_lt_takeWhile_length h
  simpa using this

/-- Positions at or beyond the prefix of epochs `≤ t` hold epochs `> t`
when the list is sorted. -/
lemma lt_epoch_of_prefix_le {files : List ℤ} {t : ℤ} {i : ℕ}
    (hs : List.Sorted (· ≤ ·) files)
    (hk : (files.takeWhile (fun e => decide (e ≤ t))).length ≤ i)
    (hi : i < files.length) : t < files.getD i 0 := by
  set k := (files.takeWhile (fun e => decide (e ≤ t))).length with hkdef
  have hklen : k < files.length := lt_of_le_of_lt hk hi
  have hfail : ¬ files.getD k 0 ≤ t := by
    have := getD_takeWhile_length (p := fun e => decide (e ≤ t)) hklen
    simpa using this
  have hmono : files.getD k 0 ≤ files.getD i 0 := sorted_getD_mono hs hk hi
  omega

lemma forwardSwitch_pos {files : List ℤ} {idx : ℕ} {t : ℤ}
    (h : idx < files.length - 1 ∧ t ≥ files.getD (idx + 1) 0) :
    forwardSwitch files idx t = (idx + 1, [idx + 1]) := by
  rw [forwardSwitch, if_pos h]

lemma forwardSwitch_neg {files : List ℤ} {idx : ℕ} {t : ℤ}
    (h : ¬ (idx < files.length - 1 ∧ t ≥ files.getD (idx + 1) 0)) :
    forwardSwitch files idx t = (idx, []) := by
  rw [forwardSwitch, if_neg h]

lemma backwardSwitch_pos {files : List ℤ} {st : ℕ × List ℕ} {t : ℤ}
    (h : 0 < st.1 ∧ t < files.getD st.1 0) :
    backwardSwitch files st t = (st.1 - 1, st.2 ++ [st.1 - 1]) := by
  rw [backwardSwitch, if_pos h]

lemma backwardSwitch_neg {files : List ℤ} {st : ℕ × List ℕ} {t : ℤ}
    (h : ¬ (0 < st.1 ∧ t < files.getD st.1 0)) :
    backwardSwitch files st t = st := by
  rw [backwardSwitch, if_neg h]

/-- For a sorted file set and an in-range cursor, one invocation of
`checkAndSwitchFiles` moves the index exactly one step toward the
spec-level target index, and leaves it unchanged once there. -/
lemma checkAndSwitch_toward_target (files : List ℤ) (idx : ℕ) (t : ℤ)
    (hs : List.Sorted (· ≤ ·) files) (hidx : idx < files.length) :
    (checkAndSwitchFiles files idx t).1 =
      if idx < selectActiveFile files t then idx + 1
      else if selectActiveFile files t < idx then idx - 1
      else idx := by
  have hkle := takeWhile_length_le (fun e => decide (e ≤ t)) files
  have htgt : selectActiveFile files t =
      (files.takeWhile (fun e => decide (e ≤ t))).length - 1 := rfl
  set k := (files.takeWhile (fun e => decide (e ≤ t))).length with hkdef
  have hlen : ¬ files.length = 0 := by omega
  rw [checkAndSwitchFiles, if_neg hlen]
  by_cases hg1 : idx + 1 < k
  · -- forward block fires and reaches a position still inside the prefix
    have hrange : idx + 1 < files.length := lt_of_lt_of_le hg1 hkle
    have hle : files.getD (idx + 1) 0 ≤ t := epoch_le_of_lt_prefix (hkdef ▸ hg1)
    rw [forwardSwitch_pos ⟨by omega, hle⟩]
    rw [backwardSwitch_neg (by simp only []; omega)]
    rw [htgt]
    have : idx < k - 1 := by omega
    simp [this]
  · -- forward block does not fire
    have hg1f : ¬ (idx < files.length - 1 ∧ t ≥ files.getD (idx + 1) 0) := by
      rintro ⟨h1, h2⟩
      have hik : k ≤ idx + 1 := by omega
      have := lt_epoch_of_prefix_le hs (hkdef ▸ hik) (by omega)
      omega
    rw [forwardSwitch_neg hg1f]
    by_cases hg2 : 0 < idx ∧ t < files.getD idx 0
    · rw [backwardSwitch_pos (by simpa using hg2)]
      -- the backward move happens exactly when the cursor sits beyond the prefix
      have hki : k ≤ idx := by
        by_contra hk
        have : files.getD idx 0 ≤ t := epoch_le_of_lt_prefix (hkdef ▸ (by omega : idx < k))
        omega
      rw [htgt]
      have h1 : ¬ idx < k - 1 := by omega
      have h2 : k - 1 < idx := by omega
      simp [h1, h2]
    · rw [backwardSwitch_neg (by simpa using hg2)]
      -- no move: the cursor already sits at the target
      rw [htgt]
      rcases Nat.eq_zero_or_pos idx with hz | hpos
      · subst hz
        have hk1 : k - 1 = 0 := by
          by_contra hk
          have hk2 : 1 < k := by omega
          have := epoch_le_of_lt_prefix (hkdef ▸ (by omega : 1 < k))
          exact hg2 ⟨by omega, by omega⟩
        simp [hk1]
      · have hik : idx < k := by
          by_contra hk
          have := lt_epoch_of_prefix_le hs (hkdef ▸ (by omega : k ≤ idx)) hidx
          exact hg2 ⟨hpos, this⟩
        have h1 : ¬ idx < k - 1 := by
          intro hlt
          have : files.getD (idx + 1) 0 ≤ t := epoch_le_of_lt_prefix (hkdef ▸ (by omega : idx + 1 < k))
          exact hg1f ⟨by omega, this⟩
        have h2 : ¬ k - 1 < idx := by omega
        simp [h1, h2]

/-- The spec-level target index is in range whenever the file set is
non-empty. -/
lemma selectActiveFile_lt_length (files : List ℤ) (t : ℤ)
    (h0 : 0 < files.length) : selectActiveFile files t < files.length := by
  have := takeWhile_length_le (fun e => decide (e ≤ t)) files
  unfold selectActiveFile
  omega

/-- Iterating the switching procedure as many times as the cursor's
distance to the target lands the cursor on the target. -/
lemma switchIter_converges (files : List ℤ) (t : ℤ)
    (hs : List.Sorted (· ≤ ·) files) :
    ∀ n idx, idx < files.length →
      max idx (selectActiveFile files t) - min idx (selectActiveFile files t) ≤ n →
      switchIter files t n idx = selectActiveFile files t := by
  intro n
  induction n with
  | zero =>
      intro idx hidx hdist
      have : idx = selectActiveFile files t := by omega
      simpa [switchIter] using this
  | succ n ih =>
      intro idx hidx hdist
      rw [switchIter]
      have hstep := checkAndSwitch_toward_target files idx t hs hidx
      have htlen : selectActiveFile files t < files.length :=
        selectActiveFile_lt_length files t (by omega)
      rcases lt_trichotomy idx (selectActiveFile files t) with h | h | h
      · rw [hstep, if_pos h]
        exact ih (idx + 1) (by omega) (by omega)
      · rw [hstep, if_neg (by omega), if_neg (by omega)]
        exact ih idx hidx (by omega)
      · rw [hstep, if_neg (by omega), if_pos h]
        exact ih (idx - 1) (by omega) (by omega)

/-- Auxiliary for claim C5: accumulating warp over `n` identical
warp-enabled frames. -/
lemma runFrames_replicate_warp (d w : ℤ) (tle sat : ℕ) (n : ℕ) :
    runFrames d (List.replicate n ⟨true, w, tle, sat⟩) = d + n * (w * 1000) := by
  induction n generalizing d with
  | zero => simp [runFrames]
  | succ n ih =>
      rw [List.replicate_succ]
      have hstep : frameStep d ⟨true, w, tle, sat⟩ = d + w * 1000 := rfl
      calc runFrames d (⟨true, w, tle, sat⟩ :: List.replicate n ⟨true, w, tle, sat⟩)
          = runFrames (d + w * 1000) (List.replicate n ⟨true, w, tle, sat⟩) := by
            simp [runFrames, List.foldl_cons, hstep]
        _ = d + w * 1000 + n * (w * 1000) := ih (d + w * 1000)
        _ = d + (n + 1 : ℕ) * (w * 1000) := by push_cast; ring

/-! ## Claim theorems: discrete components -/

/-- C2: `TimeConversions.computeJulianTime` is a total pure function on
calendar instants that never fails, and it equals the Meeus-style
Gregorian-to-Julian-Date formula applied after treating January and
February as months 13/14 of the previous year; the centuries correction
is computed from the shifted year.  Totality is witnessed by the equation
holding for every input. -/
theorem claim_C2_computeJulianTime_total_and_meeus (d : DateRec) :
    TimeConversions.computeJulianTime d =
      TimeConversions.meeusCore
        (if d.month ≤ 2 then d.year - 1 else d.year)
        (if d.month ≤ 2 then d.month + 12 else d.month)
        d.day ((d.hour : ℚ) + (d.minute : ℚ) / 60 + (d.second : ℚ) / 3600) := by
  by_cases h : d.month ≤ 2 <;>
    simp [TimeConversions.computeJulianTime, TimeConversions.meeusCore, h]

/-- C4 (counterexample): with three files of epochs 0, 10, 20 sorted
ascending, cursor at 0 and instant 25, a single invocation of
`checkAndSwitchFiles` leaves the index at 1, while the largest index with
epoch ≤ 25 is 2.  One invocation therefore does not reach the target
index. -/
theorem claim_C4_counterexample :
    List.Sorted (· ≤ ·) [(0 : ℤ), 10, 20] ∧
    (checkAndSwitchFiles [(0 : ℤ), 10, 20] 0 25).1 = 1 ∧
    selectActiveFile [(0 : ℤ), 10, 20] 25 = 2 ∧ (1 : ℕ) ≠ 2 := by
  refine ⟨?_, by decide, by decide, by decide⟩
  simp [List.sorted_cons]

/-- C4 (amended): for a file set sorted ascending by epoch and an
in-range cursor, one invocation of `checkAndSwitchFiles` moves the index
exactly one step toward the clamped target index (the largest `i` with
`epoch i ≤ instant`, clamped to 0 below), leaving it unchanged once
there; and iterating the procedure as many times as the cursor's distance
to the target makes the index equal to the target, for instants that
moved forward or backward. -/
theorem claim_C4_switch_step_toward_target (files : List ℤ) (idx : ℕ) (t : ℤ)
    (hs : List.Sorted (· ≤ ·) files) (hidx : idx < files.length) :
    (checkAndSwitchFiles files idx t).1 =
      (if idx < selectActiveFile files t then idx + 1
       else if selectActiveFile files t < idx then idx - 1
       else idx) ∧
    switchIter files t
        (max idx (selectActiveFile files t) - min idx (selectActiveFile files t)) idx =
      selectActiveFile files t := by
  refine ⟨checkAndSwitch_toward_target files idx t hs hidx, ?_⟩
  exact switchIter_converges files t hs _ idx hidx le_rfl

/-- Witness for C4 (amended) at the counterexample's file set: from index
0 with instant 25 the invocation steps to 1, and two iterations reach the
target index 2. -/
theorem claim_C4_switch_step_toward_target_witness :
    (checkAndSwitchFiles [(0 : ℤ), 10, 20] 0 25).1 =
      (if 0 < selectActiveFile [(0 : ℤ), 10, 20] 25 then 0 + 1
       else if selectActiveFile [(0 : ℤ), 10, 20] 25 < 0 then 0 - 1
       else 0) ∧
    switchIter [(0 : ℤ), 10, 20] 25
        (max 0 (selectActiveFile [(0 : ℤ), 10, 20] 25) -
          min 0 (selectActiveFile [(0 : ℤ), 10, 20] 25)) 0 =
      selectActiveFile [(0 : ℤ), 10, 20] 25 :=
  claim_C4_switch_step_toward_target [(0 : ℤ), 10, 20] 0 25
    (by simp [List.sorted_cons]) (by decide)

/-- C9: every single invocation of `checkAndSwitchFiles` changes the
index by at most one position (unchanged, one step forward, or one step
back), and it re-parses a file exactly when the index changed — the parse
list is empty for an unchanged index and contains exactly the newly
active index otherwise.  Consequently an index `k` steps away needs `k`
invocations. -/
theorem claim_C9_switch_single_step_parse (files : List ℤ) (idx : ℕ) (t : ℤ) :
    ((checkAndSwitchFiles files idx t).1 = idx ∨
     (checkAndSwitchFiles files idx t).1 = idx + 1 ∨
     (checkAndSwitchFiles files idx t).1 + 1 = idx) ∧
    (checkAndSwitchFiles files idx t).2 =
      (if (checkAndSwitchFiles files idx t).1 = idx then []
       else [(checkAndSwitchFiles files idx t).1]) := by
  rw [checkAndSwitchFiles]
  by_cases h0 : files.length = 0
  · simp [h0]
  · rw [if_neg h0]
    by_cases hg1 : idx < files.length - 1 ∧ t ≥ files.getD (idx + 1) 0
    · rw [forwardSwitch_pos hg1]
      rw [backwardSwitch_neg (by simp only []; exact fun hc => absurd hg1.2 (by omega))]
      simp
    · rw [forwardSwitch_neg hg1]
      by_cases hg2 : 0 < idx ∧ t < files.getD idx 0
      · rw [backwardSwitch_pos (by simpa using hg2)]
        have : idx - 1 ≠ idx := by omega
        simp [this]
        omega
      · rw [backwardSwitch_neg (by simpa using hg2)]
        simp

/-- C5 (counterexample): with time warp disabled and an empty TLE file
set, a rendered frame implicitly resets the accumulated warp offset: a
`dateDelta` of 5000 ms becomes 0 even though warp is off and no explicit
reset ran.  The claim's "stays unchanged when warp is disabled (for every
state of the satellite roster and file set)" is therefore false. -/
theorem claim_C5_counterexample :
    (FrameInput.mk false 60 0 5).timeWarp = false ∧
    frameStep 5000 (FrameInput.mk false 60 0 5) = 0 ∧
    frameStep 5000 (FrameInput.mk false 60 0 5) ≠ 5000 := by
  decide

/-- C5 (amended): while warp is enabled `dateDelta` grows by
`warpSeconds * 1000` once per rendered frame (over any number of frames);
with warp disabled it stays unchanged provided both the TLE file set and
the satellite roster are non-empty; with warp disabled and an empty file
set or roster it is implicitly reset to 0 each frame; and the explicit
"Reset Time" operation zeroes it together with the four manual delta
fields while re-seeding the base calendar fields from the live wall
clock. -/
theorem claim_C5_warp_offset_dynamics :
    (∀ (d : ℤ) (f : FrameInput), f.timeWarp = true →
        frameStep d f = d + f.warpSeconds * 1000) ∧
    (∀ (d : ℤ) (f : FrameInput), f.timeWarp = false → f.tleCount ≠ 0 →
        f.satCount ≠ 0 → frameStep d f = d) ∧
    (∀ (d : ℤ) (f : FrameInput), f.timeWarp = false →
        (f.tleCount = 0 ∨ f.satCount = 0) → frameStep d f = 0) ∧
    (∀ (d w : ℤ) (tle sat n : ℕ),
        runFrames d (List.replicate n ⟨true, w, tle, sat⟩) = d + n * (w * 1000)) ∧
    (∀ (s : ClockState) (wall : DateRec),
        resetTime s wall =
          { deltaDays := 0, deltaHours := 0, deltaMins := 0, deltaSecs := 0
            base := wall, dateDelta := 0 }) := by
  refine ⟨?_, ?_, ?_, ?_, ?_⟩
  · intro d f hw
    simp [frameStep, hw]
  · intro d f hw ht hs
    simp [frameStep, hw, ht, hs]
  · intro d f hw he
    simp [frameStep, hw, he]
  · intro d w tle sat n
    exact runFrames_replicate_warp d w tle sat n
  · intro s wall
    rfl

/-- Witness for C5 (amended): a warp-enabled frame adds 60000 ms, a
warp-disabled frame with non-empty roster and file set leaves 100 ms
unchanged. -/
theorem claim_C5_warp_offset_dynamics_witness :
    frameStep 100 (FrameInput.mk true 60 1 1) = 100 + 60 * 1000 ∧
    frameStep 100 (FrameInput.mk false 60 1 1) = 100 :=
  ⟨claim_C5_warp_offset_dynamics.1 100 (FrameInput.mk true 60 1 1) rfl,
   claim_C5_warp_offset_dynamics.2.1 100 (FrameInput.mk false 60 1 1) rfl
     (by decide) (by decide)⟩

/-- C7: the per-frame fleet propagation returns exactly the satellites
whose propagator call neither threw nor returned an undefined position,
each with position and velocity converted from kilometers to meters and
timestamped with the frame's shared instant; a failing satellite is
dropped without affecting the rest of the roster. -/
theorem claim_C7_fleet_propagation_filter (roster : List SatResult) (today : ℤ) :
    fleetPropagate roster today =
      roster.filterMap (fun s =>
        match s with
        | .ret (some r) v =>
            some { r := scaleKmToM r, v := scaleKmToM v, ts := today }
        | _ => none) := by
  induction roster with
  | nil => rfl
  | cons s rest ih =>
      cases s with
      | throws => simpa [fleetPropagate, List.filterMap_cons] using ih
      | ret r v =>
          cases r with
          | none => simpa [fleetPropagate, List.filterMap_cons] using ih
          | some rv => simp [fleetPropagate, List.filterMap_cons, ih]

/-- C10 (counterexample): for TLE epoch field `21356.70730882` (two-digit
year 21, fractional day-of-year 356.70730882) the code's
`firstSatelliteEpoch` is UTC midnight — `setUTCDate` truncates its
argument — while January 1 2021 advanced by the full fractional field
would carry the extra 0.70730882 day (≈ 17 hours).  The two instants
differ. -/
theorem claim_C10_counterexample :
    ((firstSatelliteEpochMs 21 (356.70730882 : ℚ) : ℚ) ≠
      claimedEpochMs 21 (356.70730882 : ℚ)) := by
  have hfl : ⌊(356.70730882 : ℚ)⌋ = 356 := by norm_num
  have hge : (0 : ℚ) ≤ 356.70730882 := by norm_num
  simp only [firstSatelliteEpochMs, claimedEpochMs, jsTrunc, if_pos hge, hfl,
    utcMsJan1, leapDaysBefore]
  norm_num

/-- C10 (amended): the two-digit epoch year `y` is windowed to `2000 + y`
when `y < 57` and to `1900 + y` otherwise, and `firstSatelliteEpoch` is
UTC January 1 of that year advanced by `⌊days⌋ - 1` whole days — the
integer part of the TLE day-of-year field, its fractional day being
discarded by `setUTCDate`.  The discarded amount is non-negative and less
than one day. -/
theorem claim_C10_epoch_year_window_and_truncation (y2 : ℤ) (days : ℚ)
    (hdays : 0 ≤ days) :
    firstSatelliteEpochMs y2 days =
      utcMsJan1 (if y2 < 57 then 2000 + y2 else 1900 + y2) +
        (⌊days⌋ - 1) * 86400000 ∧
    0 ≤ claimedEpochMs y2 days - (firstSatelliteEpochMs y2 days : ℚ) ∧
    claimedEpochMs y2 days - (firstSatelliteEpochMs y2 days : ℚ) < 86400000 := by
  have htr : jsTrunc days = ⌊days⌋ := by simp [jsTrunc, hdays]
  have hfl : (⌊days⌋ : ℚ) ≤ days := Int.floor_le days
  have hfu : days < (⌊days⌋ : ℚ) + 1 := Int.lt_floor_add_one days
  refine ⟨by rw [firstSatelliteEpochMs, htr], ?_, ?_⟩
  · rw [claimedEpochMs, firstSatelliteEpochMs, htr]
    push_cast
    nlinarith
  · rw [claimedEpochMs, firstSatelliteEpochMs, htr]
    push_cast
    nlinarith

/-- Witness for C10 (amended) at the epoch field `21356.70730882`. -/
theorem claim_C10_epoch_year_window_and_truncation_witness :
    firstSatelliteEpochMs 21 (356.70730882 : ℚ) =
      utcMsJan1 (if (21 : ℤ) < 57 then 2000 + 21 else 1900 + 21) +
        (⌊(356.70730882 : ℚ)⌋ - 1) * 86400000 ∧
    0 ≤ claimedEpochMs 21 (356.70730882 : ℚ) -
        (firstSatelliteEpochMs 21 (356.70730882 : ℚ) : ℚ) ∧
    claimedEpochMs 21 (356.70730882 : ℚ) -
        (firstSatelliteEpochMs 21 (356.70730882 : ℚ) : ℚ) < 86400000 :=
  claim_C10_epoch_year_window_and_truncation 21 (356.70730882 : ℚ) (by norm_num)

namespace MathUtils

lemma deg2Rad_add (a b : ℝ) : deg2Rad (a + b) = deg2Rad a + deg2Rad b := by
  unfold deg2Rad
  ring

lemma deg2Rad_zero : deg2Rad 0 = 0 := by
  unfold deg2Rad
  ring

lemma rotZ_rotZ (v : Vec3R) (a b : ℝ) : rotZ (rotZ v a) b = rotZ v (a + b) := by
  cases v with
  | mk x y z =>
      simp only [rotZ, deg2Rad_add, Real.cos_add, Real.sin_add, Vec3R.mk.injEq]
      refine ⟨by ring, by ring, trivial⟩

lemma rotX_rotX (v : Vec3R) (a b : ℝ) : rotX (rotX v a) b = rotX v (a + b) := by
  cases v with
  | mk x y z =>
      simp only [rotX, deg2Rad_add, Real.cos_add, Real.sin_add, Vec3R.mk.injEq]
      refine ⟨trivial, by ring, by ring⟩

lemma rotY_rotY (v : Vec3R) (a b : ℝ) : rotY (rotY v a) b = rotY v (a + b) := by
  cases v with
  | mk x y z =>
      simp only [rotY, deg2Rad_add, Real.cos_add, Real.sin_add, Vec3R.mk.injEq]
      refine ⟨by ring, trivial, by ring⟩

lemma rotZ_zero (v : Vec3R) : rotZ v 0 = v := by
  cases v with
  | mk x y z => simp [rotZ, deg2Rad_zero]

lemma rotX_zero (v : Vec3R) : rotX v 0 = v := by
  cases v with
  | mk x y z => simp [rotX, deg2Rad_zero]

lemma rotY_zero (v : Vec3R) : rotY v 0 = v := by
  cases v with
  | mk x y z => simp [rotY, deg2Rad_zero]

end MathUtils

lemma norm3_nonneg (v : Vec3R) : 0 ≤ norm3 v :=
  Real.sqrt_nonneg _

/-- C3: for every OSV and every supplied nutation object, transforming
J2000 → ECEF with `osvJ2000ToECEF` and mapping the resulting position
back through `posECEFToCEP` and `posCEPToJ2000` at the same timestamp
(same `JD`/`JT`, same nutation object) reproduces the original position
exactly in real arithmetic, hence in particular within the claimed 1e-6
relative tolerance. -/
theorem claim_C3_j2000_ecef_position_roundtrip (r v : Vec3R) (ts : DateRec)
    (p : NutPar) :
    Frames.posCEPToJ2000 ((TimeConversions.computeJulianTime ts).2 : ℝ)
      (Frames.posECEFToCEP ((TimeConversions.computeJulianTime ts).2 : ℝ)
        ((TimeConversions.computeJulianTime ts).1 : ℝ)
        (Frames.osvJ2000ToECEF { r := r, v := v, ts := ts } p).r p) p = r ∧
    norm3 (sub3
      (Frames.posCEPToJ2000 ((TimeConversions.computeJulianTime ts).2 : ℝ)
        (Frames.posECEFToCEP ((TimeConversions.computeJulianTime ts).2 : ℝ)
          ((TimeConversions.computeJulianTime ts).1 : ℝ)
          (Frames.osvJ2000ToECEF { r := r, v := v, ts := ts } p).r p) p) r) ≤
      1e-6 * norm3 r := by
  have hback : Frames.posCEPToJ2000 ((TimeConversions.computeJulianTime ts).2 : ℝ)
      (Frames.posECEFToCEP ((TimeConversions.computeJulianTime ts).2 : ℝ)
        ((TimeConversions.computeJulianTime ts).1 : ℝ)
        (Frames.osvJ2000ToECEF { r := r, v := v, ts := ts } p).r p) p = r := by
    simp only [Frames.osvJ2000ToECEF, Frames.osvJ2000ToCEP, Frames.posECEFToCEP,
      Frames.posCEPToJ2000]
    simp only [MathUtils.rotZ_rotZ, MathUtils.rotX_rotX, MathUtils.rotY_rotY,
      neg_add_cancel, add_neg_cancel, MathUtils.rotZ_zero, MathUtils.rotX_zero,
      MathUtils.rotY_zero]
  refine ⟨hback, ?_⟩
  rw [hback]
  have hzero : sub3 r r = { x := 0, y := 0, z := 0 } := by
    simp [sub3]
  rw [hzero]
  have hnz : norm3 { x := (0 : ℝ), y := 0, z := 0 } = 0 := by
    simp [norm3]
  rw [hnz]
  exact mul_nonneg (by norm_num) (norm3_nonneg r)

namespace Kepler

/-- A successful run of the loop returns either the unmodified input with
its entry `error` already within tolerance, or a value whose Kepler
residual is within tolerance. -/
lemma solveSteps_ok (e Mrad tolerance : ℝ) :
    ∀ (fuel : ℕ) (eA error X : ℝ),
      solveSteps e Mrad tolerance fuel eA error = .ok X →
      (X = eA ∧ ¬ error > tolerance) ∨
        |X - e * Real.sin X - Mrad| ≤ tolerance := by
  intro fuel
  induction fuel with
  | zero =>
      intro eA error X h
      rw [solveSteps] at h
      by_cases hc : error > tolerance
      · rw [if_pos hc] at h
        exact absurd h (by simp)
      · rw [if_neg hc] at h
        left
        refine ⟨?_, hc⟩
        cases h
        rfl
  | succ n ih =>
      intro eA error X h
      rw [solveSteps] at h
      by_cases hc : error > tolerance
      · rw [if_pos hc] at h
        rcases ih _ _ X h with ⟨hX, hnot⟩ | hb
        · right
          rw [hX]
          exact le_of_not_lt hnot
        · right
          exact hb
      · rw [if_neg hc] at h
        left
        refine ⟨?_, hc⟩
        cases h
        rfl

lemma deg2Rad_rad2Deg (x : ℝ) :
    MathUtils.deg2Rad (MathUtils.rad2Deg x) = x := by
  unfold MathUtils.deg2Rad MathUtils.rad2Deg
  field_simp

end Kepler


/-- C8: for every mean anomaly `M` (degrees), eccentricity `e`, tolerance
and iteration budget, `Kepler.solveEccentricAnomaly` either returns an
eccentric anomaly `E` in degrees whose radian value satisfies
`|E - e·sin(E) - M| ≤ tolerance` (the Kepler-equation residual recomputed
after the last Newton-Raphson update), or raises the convergence error —
the only failure mode, raised exactly when the loop would exceed
`maxIterations` updates.  The function is pure: its result depends only
on its four arguments. -/
theorem claim_C8_solveEccentricAnomaly_residual (M e tolerance : ℝ)
    (maxIterations : ℕ) :
    (∃ E, Kepler.solveEccentricAnomaly M e tolerance maxIterations = .ok E ∧
      |MathUtils.deg2Rad E - e * Real.sin (MathUtils.deg2Rad E) -
        MathUtils.deg2Rad M| ≤ tolerance) ∨
    Kepler.solveEccentricAnomaly M e tolerance maxIterations =
      .error .convergence := by
  rcases hs : Kepler.solveSteps e (MathUtils.deg2Rad M) tolerance maxIterations
      (MathUtils.deg2Rad M) (tolerance + 1.0) with err | X
  · right
    cases err
    rw [Kepler.solveEccentricAnomaly, hs]
    rfl
  · left
    refine ⟨MathUtils.rad2Deg X, ?_, ?_⟩
    · rw [Kepler.solveEccentricAnomaly, hs]
      rfl
    · rcases Kepler.solveSteps_ok e (MathUtils.deg2Rad M) tolerance
        maxIterations (MathUtils.deg2Rad M) (tolerance + 1.0) X hs with
        ⟨_, hnot⟩ | hb
      · exact absurd (by linarith : tolerance + 1.0 > tolerance) hnot
      · rw [Kepler.deg2Rad_rad2Deg]
        exact hb


namespace JsNum

@[simp] lemma jadd_num_num (a b : ℝ) : jadd (num a) (num b) = num (a + b) := rfl

@[simp] lemma jadd_nan_left (x : JsNum) : jadd nan x = nan := by cases x <;> rfl

@[simp] lemma jadd_nan_right (x : JsNum) : jadd x nan = nan := by cases x <;> rfl

@[simp] lemma jadd_undef_left (x : JsNum) : jadd undef x = nan := by cases x <;> rfl

@[simp] lemma jadd_undef_right (x : JsNum) : jadd x undef = nan := by cases x <;> rfl

@[simp] lemma jsub_num_num (a b : ℝ) : jsub (num a) (num b) = num (a - b) := rfl

@[simp] lemma jsub_nan_left (x : JsNum) : jsub nan x = nan := by cases x <;> rfl

@[simp] lemma jsub_nan_right (x : JsNum) : jsub x nan = nan := by cases x <;> rfl

@[simp] lemma jsub_undef_left (x : JsNum) : jsub undef x = nan := by cases x <;> rfl

@[simp] lemma jsub_undef_right (x : JsNum) : jsub x undef = nan := by cases x <;> rfl

@[simp] lemma jmul_num_num (a b : ℝ) : jmul (num a) (num b) = num (a * b) := rfl

@[simp] lemma jmul_nan_left (x : JsNum) : jmul nan x = nan := by cases x <;> rfl

@[simp] lemma jmul_nan_right (x : JsNum) : jmul x nan = nan := by cases x <;> rfl

@[simp] lemma jmul_undef_left (x : JsNum) : jmul undef x = nan := by cases x <;> rfl

@[simp] lemma jmul_undef_right (x : JsNum) : jmul x undef = nan := by cases x <;> rfl

@[simp] lemma jdiv_num_num (a b : ℝ) : jdiv (num a) (num b) = num (a / b) := rfl

@[simp] lemma jdiv_nan_left (x : JsNum) : jdiv nan x = nan := by cases x <;> rfl

@[simp] lemma jdiv_nan_right (x : JsNum) : jdiv x nan = nan := by cases x <;> rfl

@[simp] lemma jdiv_undef_left (x : JsNum) : jdiv undef x = nan := by cases x <;> rfl

@[simp] lemma jdiv_undef_right (x : JsNum) : jdiv x undef = nan := by cases x <;> rfl

@[simp] lemma jneg_num (a : ℝ) : jneg (num a) = num (-a) := rfl

@[simp] lemma jneg_nan : jneg nan = nan := rfl

@[simp] lemma jneg_undef : jneg undef = nan := rfl

@[simp] lemma jabs_num (a : ℝ) : jabs (num a) = num |a| := rfl

@[simp] lemma jabs_nan : jabs nan = nan := rfl

@[simp] lemma jabs_undef : jabs undef = nan := rfl

@[simp] lemma jsqrt_num (a : ℝ) : jsqrt (num a) = num (Real.sqrt a) := rfl

@[simp] lemma jsqrt_nan : jsqrt nan = nan := rfl

@[simp] lemma jsqrt_undef : jsqrt undef = nan := rfl

@[simp] lemma jsin_num (a : ℝ) : jsin (num a) = num (Real.sin a) := rfl

@[simp] lemma jsin_nan : jsin nan = nan := rfl

@[simp] lemma jsin_undef : jsin undef = nan := rfl

@[simp] lemma jcos_num (a : ℝ) : jcos (num a) = num (Real.cos a) := rfl

@[simp] lemma jcos_nan : jcos nan = nan := rfl

@[simp] lemma jcos_undef : jcos undef = nan := rfl

@[simp] lemma jatan2_num_num (a b : ℝ) : jatan2 (num a) (num b) = num (atan2R a b) := rfl

@[simp] lemma jatan2_nan_left (x : JsNum) : jatan2 nan x = nan := by cases x <;> rfl

@[simp] lemma jatan2_nan_right (x : JsNum) : jatan2 x nan = nan := by cases x <;> rfl

@[simp] lemma jacos_num (a : ℝ) : jacos (num a) = num (Real.arccos a) := rfl

@[simp] lemma jacos_nan : jacos nan = nan := rfl

@[simp] lemma jgtb_nan_left (x : JsNum) : jgtb nan x = false := by cases x <;> rfl

@[simp] lemma jgtb_num_num (a b : ℝ) : jgtb (num a) (num b) = decide (b < a) := rfl

end JsNum

namespace KeplerJs

open JsNum

/-- A `NaN` loop error exits the solver loop immediately, returning the
current iterate. -/
lemma solveSteps_nan_error (e Mrad tol eA : JsNum) (fuel : ℕ) :
    solveSteps e Mrad tol fuel eA .nan = .ok eA := by
  cases fuel <;> · rw [solveSteps]; simp

/-- With a `NaN` mean anomaly, the first Newton-Raphson update makes both
the iterate and the error `NaN`, so the loop exits after one iteration
with a `NaN` iterate and never throws (for a positive budget). -/
lemma solveSteps_nan_from (e : JsNum) (t err : ℝ) (h : t < err) (fuel : ℕ) :
    solveSteps e .nan (num t) (fuel + 1) .nan (num err) = .ok .nan := by
  rw [solveSteps]
  have hg : jgtb (num err) (num t) = true := by simp [h]
  rw [if_pos hg]
  simp only [jsin_nan, jmul_nan_right, jsub_nan_left, jsub_nan_right, jcos_nan,
    jdiv_nan_left, jabs_nan]
  exact solveSteps_nan_error e .nan (num t) .nan fuel

@[simp] lemma deg2Rad_js_nan : MathUtilsJs.deg2Rad .nan = .nan := by
  simp [MathUtilsJs.deg2Rad]

@[simp] lemma rad2Deg_js_nan : MathUtilsJs.rad2Deg .nan = .nan := by
  simp [MathUtilsJs.rad2Deg]

/-- The solver applied to a `NaN` mean anomaly (the value `kepler.M +
360·Δt/(period·1000)` takes when `kepler.M` is `undefined`) returns `NaN`
without throwing, for the source's tolerance `1e-5` and budget 10. -/
lemma solveEccentricAnomaly_nan_M (e : JsNum) :
    solveEccentricAnomaly .nan e (num 1e-5) 10 = .ok .nan := by
  rw [solveEccentricAnomaly, deg2Rad_js_nan]
  have hinit : jadd (num 1e-5) (num 1.0) = num (1e-5 + 1.0) := rfl
  rw [hinit, show (10 : ℕ) = 9 + 1 from rfl,
    solveSteps_nan_from e 1e-5 (1e-5 + 1.0) (by norm_num) 9]
  simp [Except.map]

end KeplerJs

open JsNum in
lemma normJs_r0 :
    MathUtilsJs.norm ⟨num 10000000, num 0, num 0⟩ = num 10000000 := by
  show jsqrt (jadd (jadd (jmul (num 10000000) (num 10000000))
    (jmul (num 0) (num 0))) (jmul (num 0) (num 0))) = num 10000000
  simp only [jmul_num_num, jadd_num_num, jsqrt_num]
  congr 1
  rw [show (10000000 : ℝ) * 10000000 + 0 * 0 + 0 * 0 = 10000000 ^ 2 by norm_num]
  exact Real.sqrt_sq (by norm_num)

open JsNum in
lemma normJs_v0 :
    MathUtilsJs.norm ⟨num 0, num 5000, num 0⟩ = num 5000 := by
  show jsqrt (jadd (jadd (jmul (num 0) (num 0))
    (jmul (num 5000) (num 5000))) (jmul (num 0) (num 0))) = num 5000
  simp only [jmul_num_num, jadd_num_num, jsqrt_num]
  congr 1
  rw [show (0 : ℝ) * 0 + 5000 * 5000 + 0 * 0 = 5000 ^ 2 by norm_num]
  exact Real.sqrt_sq (by norm_num)

open JsNum in
lemma osvToKepler_a_r0v0 :
    (KeplerJs.osvToKepler ⟨num 10000000, num 0, num 0⟩
      ⟨num 0, num 5000, num 0⟩ 0).a =
    num (-(3.986004418e14) /
      (2.0 * (0.5 * 5000 * 5000 - 3.986004418e14 / 10000000))) := by
  simp only [KeplerJs.osvToKepler, normJs_r0, normJs_v0, jmul_num_num,
    jsub_num_num, jdiv_num_num, jneg_num]

open JsNum in
lemma osvToKepler_M_r0v0 :
    (KeplerJs.osvToKepler ⟨num 10000000, num 0, num 0⟩
      ⟨num 0, num 5000, num 0⟩ 0).M = undef := by
  simp only [KeplerJs.osvToKepler]

/-- C1 (evaluation at the failing input): for the elliptic state vector
`r = (10000 km, 0, 0)`, `v = (0, 5 km/s, 0)` at epoch 0, propagating the
element set produced by `osvToKepler` at the same epoch does not return
an OSV at all: the element set lacks `M`, `mu` and `b`, the propagated
mean anomaly is therefore `NaN`, and the return statement's unbound
identifier `v_ext` throws a ReferenceError.  The round trip claimed by
the spec is impossible with this source. -/
theorem claim_C1_propagate_throws_on_osvToKepler_output :
    KeplerJs.propagate
      (KeplerJs.osvToKepler ⟨JsNum.num 10000000, JsNum.num 0, JsNum.num 0⟩
        ⟨JsNum.num 0, JsNum.num 5000, JsNum.num 0⟩ 0) 0 =
      .error .referenceError := by
  have hne : JsNum.jeq0b (KeplerJs.osvToKepler
      ⟨JsNum.num 10000000, JsNum.num 0, JsNum.num 0⟩
      ⟨JsNum.num 0, JsNum.num 5000, JsNum.num 0⟩ 0).a = false := by
    rw [osvToKepler_a_r0v0]
    simp only [JsNum.jeq0b]
    rw [decide_eq_false_iff_not]
    exact div_ne_zero (by norm_num) (by norm_num)
  rw [KeplerJs.propagate, hne]
  simp only [Bool.false_eq_true, if_false]
  rw [osvToKepler_M_r0v0]
  simp only [JsNum.jadd_undef_left, KeplerJs.solveEccentricAnomaly_nan_M]

/-- C6 (evaluation at the failing input): calling `osvJ2000ToCEP` with a
`null` nutation object on any finite-number OSV does trigger the internal
recomputation `Nutation.nutationTerms(T)`, but that function's result
carries no `eps` property; reading the absent `eps` yields `undefined`,
which turns every rotation angle of the nutation stage into `NaN`, so all
six returned position and velocity components are `NaN` rather than
well-defined numbers. -/
theorem claim_C6_null_nutation_propagates_nan (rx ry rz vx vy vz : ℝ)
    (ts : DateRec) :
    (FramesJs.osvJ2000ToCEP
      { r := ⟨JsNum.num rx, JsNum.num ry, JsNum.num rz⟩
        v := ⟨JsNum.num vx, JsNum.num vy, JsNum.num vz⟩, ts := ts }
      none).r.x = JsNum.nan ∧
    (FramesJs.osvJ2000ToCEP
      { r := ⟨JsNum.num rx, JsNum.num ry, JsNum.num rz⟩
        v := ⟨JsNum.num vx, JsNum.num vy, JsNum.num vz⟩, ts := ts }
      none).r.y = JsNum.nan ∧
    (FramesJs.osvJ2000ToCEP
      { r := ⟨JsNum.num rx, JsNum.num ry, JsNum.num rz⟩
        v := ⟨JsNum.num vx, JsNum.num vy, JsNum.num vz⟩, ts := ts }
      none).r.z = JsNum.nan ∧
    (FramesJs.osvJ2000ToCEP
      { r := ⟨JsNum.num rx, JsNum.num ry, JsNum.num rz⟩
        v := ⟨JsNum.num vx, JsNum.num vy, JsNum.num vz⟩, ts := ts }
      none).v.x = JsNum.nan ∧
    (FramesJs.osvJ2000ToCEP
      { r := ⟨JsNum.num rx, JsNum.num ry, JsNum.num rz⟩
        v := ⟨JsNum.num vx, JsNum.num vy, JsNum.num vz⟩, ts := ts }
      none).v.y = JsNum.nan ∧
    (FramesJs.osvJ2000ToCEP
      { r := ⟨JsNum.num rx, JsNum.num ry, JsNum.num rz⟩
        v := ⟨JsNum.num vx, JsNum.num vy, JsNum.num vz⟩, ts := ts }
      none).v.z = JsNum.nan := by
  refine ⟨?_, ?_, ?_, ?_, ?_, ?_⟩ <;>
    simp [FramesJs.osvJ2000ToCEP, Nutation.nutationTerms, MathUtilsJs.rotX,
      MathUtilsJs.rotY, MathUtilsJs.rotZ, MathUtilsJs.deg2Rad]
